import Mathlib

/-!
Verification of the `juliett` browser helper library (`src/juliett.js`), a
class-based abstraction layer for UI view control and data exchange with
asynchronous requests.  The definitions below shallowly embed the JavaScript
classes `Enumerator`, `DataField`, `BaseItem`/`BaseItemList`, `Payload`,
`BaseController` and `DataController` as pure Lean functions over an explicit
JavaScript value type; the theorems settle the specification claims about
them.
-/

set_option autoImplicit false

/-- JavaScript runtime values, restricted to the shapes the library handles.
`baseItemInst c` is an object that is `instanceof BaseItem` and stores
content `c` (class `BaseItem`, juliett.js lines 90-130); `func id` is a
function value identified by `id`; `obj` is a plain object given as an
ordered field list; `arr` a dense array. -/
inductive JSVal where
  | undefined
  | nullv
  | bool (b : Bool)
  | num (n : Int)
  | str (s : String)
  | func (id : Nat)
  | obj (fields : List (String × JSVal))
  | arr (elems : List JSVal)
  | baseItemInst (content : JSVal)

/-- JavaScript `ToBoolean` on the embedded values (`0`, `""`, `null`,
`undefined` are falsy; every object, array and function is truthy). -/
def truthy : JSVal → Bool
  | .undefined => false
  | .nullv => false
  | .bool b => b
  | .num n => n != 0
  | .str s => s != ""
  | .func _ => true
  | .obj _ => true
  | .arr _ => true
  | .baseItemInst _ => true

/-- JavaScript loose equality against `null` (`v == null` holds exactly for
`null` and `undefined`). -/
def looseEqNull : JSVal → Bool
  | .nullv => true
  | .undefined => true
  | _ => false

/-- `typeof v === "string"`. -/
def isString : JSVal → Bool
  | .str _ => true
  | _ => false

/-- `typeof v == "function"`. -/
def isFunction : JSVal → Bool
  | .func _ => true
  | _ => false

/-- `v instanceof BaseItem`. -/
def isBaseItem : JSVal → Bool
  | .baseItemInst _ => true
  | _ => false

/-- Exception classes thrown by the library (`TypeError`, `RangeError` and
plain `Error`). -/
inductive JSError where
  | typeError
  | rangeError
  | genericError
  deriving DecidableEq

/-- Parse a non-empty run of decimal digits, accumulating into `acc`;
any non-digit character aborts the parse. -/
def decimalNatAux : List Char → Nat → Option Nat
  | [], acc => some acc
  | c :: rest, acc =>
    if '0' ≤ c && c ≤ '9' then decimalNatAux rest (acc * 10 + (c.toNat - '0'.toNat))
    else none

/-- A canonical array-index property key: a string that is the decimal
numeral of a natural number with no leading zeros (JavaScript array index
semantics for the property strings that actually arise here). -/
def canonicalArrayIndex? (s : String) : Option Nat :=
  match s.data with
  | [] => none
  | c :: rest =>
    if c = '0' && !rest.isEmpty then none
    else decimalNatAux (c :: rest) 0

/-- Reading property `prop` of a JavaScript array of strings, as performed by
`Reflect.ownKeys(obj)[prop]` inside the `Enumerator` `has` trap
(juliett.js line 71): `"length"` yields the element count, a canonical index
within range yields the element, anything else yields `undefined`.
Properties inherited from `Array.prototype` never arise from the numeric
property keys considered here and are not modelled. -/
def arrayGetStr (keys : List String) (prop : String) : JSVal :=
  if prop = "length" then .num keys.length
  else
    match canonicalArrayIndex? prop with
    | some i =>
      match keys.get? i with
      | some k => .str k
      | none => .undefined
    | none => .undefined

/-- The `get` trap of `Enumerator` (juliett.js lines 60-62):
`(prop in obj) ? obj[prop] : null`. -/
def enumeratorGet (target : List (String × JSVal)) (prop : String) : JSVal :=
  match target.lookup prop with
  | some v => v
  | none => .nullv

/-- The `has` trap of `Enumerator` (juliett.js lines 67-72): for an own key
it returns the stored value, otherwise it returns
`Reflect.ownKeys(obj)[prop]`. -/
def enumeratorHas (target : List (String × JSVal)) (prop : String) : JSVal :=
  match target.lookup prop with
  | some v => v
  | none => arrayGetStr (target.map Prod.fst) prop

/-- The `in` operator applied to an `Enumerator` proxy with a numeric
left operand: `ToPropertyKey` turns the number into its decimal string and
the trap result is coerced with `ToBoolean`. -/
def enumeratorInNum (target : List (String × JSVal)) (n : Int) : Bool :=
  truthy (enumeratorHas target (toString n))

/-- Target object of the `DataFieldType` enumerator (juliett.js line 85). -/
def dataFieldTypeTarget : List (String × JSVal) :=
  [("String", .num 1), ("Number", .num 2), ("DateTime", .num 3), ("Boolean", .num 4)]

/-- Target object of the `DataControllerStatus` enumerator
(juliett.js lines 429-432). -/
def dataControllerStatusTarget : List (String × JSVal) :=
  [("Succeeded", .bool true), ("Failed", .bool false)]

/-- The value of `DataControllerStatus.Failed`, read through the
`Enumerator` `get` trap. -/
def DataControllerStatus.Failed : JSVal :=
  enumeratorGet dataControllerStatusTarget "Failed"

/-- The value of `DataControllerStatus.Succeeded`, read through the
`Enumerator` `get` trap. -/
def DataControllerStatus.Succeeded : JSVal :=
  enumeratorGet dataControllerStatusTarget "Succeeded"

/-- State of a constructed `DataField` (juliett.js lines 224-238). -/
structure DataFieldState where
  fieldName : String
  fieldType : Int
  fieldValue : JSVal
  isRequired : Bool
  onValidateCallback : Nat

/-- The `DataField` constructor (juliett.js lines 225-234).  It throws a
`TypeError` when `fieldType in DataFieldType` is false (the enumerator
constants are numbers, so the numeric case decides membership), and a
`TypeError` also arises from `this.onValidateCallback.bind(this)` when no
callback function was supplied (`onValidateCallback` is `some id` when a
function was passed). -/
def DataField.new (fieldName : String) (fieldType : Int) (fieldValue : JSVal)
    (isRequired : Bool) (onValidateCallback : Option Nat) :
    Except JSError DataFieldState :=
  if !enumeratorInNum dataFieldTypeTarget fieldType then
    .error .typeError
  else
    match onValidateCallback with
    | none => .error .typeError
    | some cb => .ok ⟨fieldName, fieldType, fieldValue, isRequired, cb⟩

/-- Private state of a `Payload` instance (juliett.js lines 275-310):
`content` is the `#content` array, `requestor` the `#requestor` class name. -/
structure PayloadState where
  content : List JSVal
  requestor : String

/-- A requestor object as seen by the `Payload` constructor: the only part
the constructor keeps is `requestor.constructor.name`. -/
structure JSObjectRef where
  className : String

/-- The `Payload` constructor (juliett.js lines 282-287): rejects `null`
and non-object requestors (collapsed to `none`) with a `TypeError`, and
otherwise stores an empty content array and the requestor class name. -/
def Payload.new (requestor : Option JSObjectRef) : Except JSError PayloadState :=
  match requestor with
  | none => .error .typeError
  | some r => .ok ⟨[], r.className⟩

/-- The `set content` accessor (juliett.js lines 288-290): it pushes the
assigned value onto the private `#content` array. -/
def Payload.setContent (p : PayloadState) (v : JSVal) : PayloadState :=
  { p with content := p.content ++ [v] }

/-- The object literal built by `Payload.addContent` (juliett.js lines
299-305): `header` holds the requestor class name and the `Date.now()`
timestamp, `body` holds the caller's object. -/
def Payload.mkEntry (requestor : String) (time : Int) (body : JSVal) : JSVal :=
  .obj [("header", .obj [("requestor", .str requestor), ("time", .num time)]),
        ("body", body)]

/-- `Payload.addContent` (juliett.js lines 298-306): assigns the entry
object through the `content` setter; `time` is the value `Date.now()`
returned at the moment of the call. -/
def Payload.addContent (p : PayloadState) (time : Int) (body : JSVal) : PayloadState :=
  Payload.setContent p (Payload.mkEntry p.requestor time body)

/-- Reading `this.content` on a `Payload`: the class declares only a
`set content` accessor and no getter (juliett.js lines 288-290), so the
property read finds an accessor without a `[[Get]]` and yields `undefined`,
whatever the private `#content` array holds. -/
def Payload.contentGet (_p : PayloadState) : JSVal :=
  .undefined

/-- `Payload.toJSON` (juliett.js lines 307-309): `return this.content`. -/
def Payload.toJSON (p : PayloadState) : JSVal :=
  Payload.contentGet p

/-- Join a list of strings with commas, as `JSON.stringify` does between
object members and array elements. -/
def joinComma : List String → String
  | [] => ""
  | [s] => s
  | s :: rest => s ++ "," ++ joinComma rest

/-- Quote a string as a JSON string literal (escaping of the quote and
backslash characters; control-character escapes do not arise in the
strings handled here). -/
def jsonQuote (s : String) : String :=
  "\"" ++ String.join (s.data.map fun c =>
    if c = '"' then "\\\"" else if c = '\\' then "\\\\" else String.singleton c) ++ "\""

mutual

/-- The host `JSON.stringify` on embedded values: `undefined` and functions
produce no output (`none`), a `BaseItem` serializes through its `toJSON`
returning its content (juliett.js lines 127-129), object members whose
value serializes to nothing are skipped, and unserializable array elements
become `null`. -/
def jsonStringify : JSVal → Option String
  | .undefined => none
  | .func _ => none
  | .nullv => some "null"
  | .bool b => some (if b then "true" else "false")
  | .num n => some (toString n)
  | .str s => some (jsonQuote s)
  | .baseItemInst c => jsonStringify c
  | .obj fields => some ("\x7b" ++ joinComma (jsonStringifyFields fields) ++ "\x7d")
  | .arr elems => some ("[" ++ joinComma (jsonStringifyElems elems) ++ "]")

/-- Serialize the members of a JSON object, skipping members whose value
does not serialize. -/
def jsonStringifyFields : List (String × JSVal) → List String
  | [] => []
  | (k, v) :: rest =>
    match jsonStringify v with
    | none => jsonStringifyFields rest
    | some sv => (jsonQuote k ++ ":" ++ sv) :: jsonStringifyFields rest

/-- Serialize the elements of a JSON array, rendering unserializable
elements as `null`. -/
def jsonStringifyElems : List JSVal → List String
  | [] => []
  | v :: rest =>
    (match jsonStringify v with | none => "null" | some sv => sv) :: jsonStringifyElems rest

end

/-- Private state of a `BaseItemList` (juliett.js lines 135-219): `#length`
is the element counter maintained by the class itself, `#items` the backing
JavaScript array, addressed by index; a hole (a deleted or never-assigned
slot) reads as `undefined`, which the model represents with `JSVal.undefined`. -/
structure BaseItemList where
  length : Nat
  items : Nat → JSVal

/-- The `BaseItemList` constructor (juliett.js lines 138-141): zero length
and an empty backing array. -/
def BaseItemList.new : BaseItemList :=
  { length := 0, items := fun _ => .undefined }

/-- `BaseItemList.item` (juliett.js lines 161-165): a `RangeError` when
`index < 0 || index > this.length - 1`, else `this.items[index]` (JavaScript
evaluates `this.length - 1` in exact integer arithmetic, hence the `Int`
index). -/
def BaseItemList.item (L : BaseItemList) (index : Int) : Except JSError JSVal :=
  if index < 0 || index > (L.length : Int) - 1 then .error .rangeError
  else .ok (L.items index.toNat)

/-- `BaseItemList.push` (juliett.js lines 170-175): a `TypeError` unless the
argument is a `BaseItem` instance (`obj == null` also ends in a `TypeError`,
thrown while the error message dereferences `obj.constructor`); otherwise
`this.#items[this.length] = obj; this.#length++`. -/
def BaseItemList.push (L : BaseItemList) (x : JSVal) : Except JSError BaseItemList :=
  if !isBaseItem x then .error .typeError
  else .ok { length := L.length + 1,
             items := fun j => if j = L.length then x else L.items j }

/-- `BaseItemList.pop` (juliett.js lines 179-183): when the list is
non-empty, `delete this.#items[--this.length]` empties the final slot and
decrements the counter. -/
def BaseItemList.pop (L : BaseItemList) : BaseItemList :=
  if L.length > 0 then
    { length := L.length - 1,
      items := fun j => if j = L.length - 1 then .undefined else L.items j }
  else L

/-- `BaseItemList.delete` (juliett.js lines 188-193): the same bounds check
as `item`, then `delete this.#items[index]` (which empties the slot in
place without shifting later elements) and `this.#length--`. -/
def BaseItemList.delete (L : BaseItemList) (index : Int) : Except JSError BaseItemList :=
  if index < 0 || index > (L.length : Int) - 1 then .error .rangeError
  else .ok { length := L.length - 1,
             items := fun j => if j = index.toNat then .undefined else L.items j }

/-- The anchored regular expression `PATTERN_URL` (juliett.js line 38) is
`(http)s?:\/\/(www|localhost)` followed by `(.|\/)` and the class
`[a-z0-9-\.\/]+`.  This matcher consumes the scheme part, returning the
remainder on success. -/
def urlScheme : List Char → Option (List Char)
  | 'h' :: 't' :: 't' :: 'p' :: rest =>
    match rest with
    | 's' :: ':' :: '/' :: '/' :: r => some r
    | ':' :: '/' :: '/' :: r => some r
    | _ => none
  | _ => none

/-- The `(www|localhost)` alternation of `PATTERN_URL`; the two branches
cannot both start a match, so leftmost choice needs no backtracking. -/
def urlHost : List Char → Option (List Char)
  | 'w' :: 'w' :: 'w' :: r => some r
  | 'l' :: 'o' :: 'c' :: 'a' :: 'l' :: 'h' :: 'o' :: 's' :: 't' :: r => some r
  | _ => none

/-- A JavaScript line terminator, the only characters `.` does not match. -/
def isLineTerm (c : Char) : Bool :=
  c = '\n' || c = '\r' || c = Char.ofNat 0x2028 || c = Char.ofNat 0x2029

/-- Membership in the character class `[a-z0-9-\.\/]`. -/
def isURLClassChar (c : Char) : Bool :=
  ('a' ≤ c && c ≤ 'z') || ('0' ≤ c && c ≤ '9') || c = '-' || c = '.' || c = '/'

/-- `PATTERN_URL.test(s)`: the pattern is anchored with `^`, so a match
must consume the scheme and host prefix and then one further `.`-matched
character followed by at least one class character. -/
def testURL (s : String) : Bool :=
  match urlScheme s.data with
  | none => false
  | some r1 =>
    match urlHost r1 with
    | some (c1 :: c2 :: _) => !isLineTerm c1 && isURLClassChar c2
    | _ => false

/-- `PATTERN_URL.test(v)` as invoked by the setters, which reach the test
only for string values. -/
def testURLVal : JSVal → Bool
  | .str s => testURL s
  | _ => false

/-- Private state of a `BaseController` (juliett.js lines 317-328).  The
constructor leaves `#sender` undeclared-undefined (it never assigns it) and
sets the other fields to `null`. -/
structure BaseControllerState where
  recipient : JSVal
  sender : JSVal
  payload : JSVal
  onSuccessEventHandler : JSVal
  onErrorEventHandler : JSVal

/-- The `BaseController` constructor (juliett.js lines 323-328). -/
def BaseController.new : BaseControllerState :=
  { recipient := .nullv, sender := .undefined, payload := .nullv,
    onSuccessEventHandler := .nullv, onErrorEventHandler := .nullv }

/-- The `recipient` setter (juliett.js lines 345-349): a `TypeError` when
the value is loosely `null`, not a string, or fails `PATTERN_URL.test`;
otherwise the value is stored.  A throw leaves the instance untouched,
which the `Except.error` result reflects. -/
def BaseController.setRecipient (st : BaseControllerState) (v : JSVal) :
    Except JSError BaseControllerState :=
  if looseEqNull v || !isString v || !testURLVal v then .error .typeError
  else .ok { st with recipient := v }

/-- The `sender` setter (juliett.js lines 357-361), identical to the
`recipient` setter except for the stored field. -/
def BaseController.setSender (st : BaseControllerState) (v : JSVal) :
    Except JSError BaseControllerState :=
  if looseEqNull v || !isString v || !testURLVal v then .error .typeError
  else .ok { st with sender := v }

/-- The `onSuccessEventHandler` setter (juliett.js lines 369-371): stores
the value when it is a non-null function, and `null` otherwise; it never
throws, so it is a total function on states. -/
def BaseController.setOnSuccessEventHandler (st : BaseControllerState) (v : JSVal) :
    BaseControllerState :=
  { st with onSuccessEventHandler := if !looseEqNull v && isFunction v then v else .nullv }

/-- The `onErrorEventHandler` setter (juliett.js lines 379-381), identical
to the success-handler setter except for the stored field. -/
def BaseController.setOnErrorEventHandler (st : BaseControllerState) (v : JSVal) :
    BaseControllerState :=
  { st with onErrorEventHandler := if !looseEqNull v && isFunction v then v else .nullv }

/-- A value that is `null` or a function, the invariant the handler slots
maintain. -/
def isNullOrFunction (v : JSVal) : Bool :=
  looseEqNull v || isFunction v

/-- The invariant of claim C9: both handler slots hold `null` or a
function. -/
def handlerInv (st : BaseControllerState) : Bool :=
  isNullOrFunction st.onSuccessEventHandler && isNullOrFunction st.onErrorEventHandler

/-- The fields of the `XMLHttpRequest` object that
`BaseController.execute`'s `onreadystatechange` handler reads
(juliett.js lines 402-419). -/
structure XHRState where
  readyState : Nat
  status : Nat
  responseText : String

/-- The settlement of the promise built inside `BaseController.execute`:
`resolved` carries the object passed to `resolve` (juliett.js lines
405-410) and `rejected` the `errorCode`/`errorMessage` object passed to
`reject` (lines 413-416). -/
inductive Settlement where
  | resolved (sender : JSVal) (recipient : JSVal) (sent : JSVal) (received : String)
  | rejected (errorCode : Nat) (errorMessage : String)

/-- The `onreadystatechange` handler of `BaseController.execute`
(juliett.js lines 402-419): nothing happens before the fetch completes
(`readyState != 4`); on completion, status 200 resolves with the sender,
recipient, original payload and raw response text, and any other status
rejects with the status code and raw response text. -/
def BaseController.onReadyStateChange (self : BaseControllerState) (request : XHRState) :
    Option Settlement :=
  if request.readyState = 4 then
    if request.status = 200 then
      some (.resolved self.sender self.recipient self.payload request.responseText)
    else
      some (.rejected request.status request.responseText)
  else none

/-- The guard clauses at the top of `BaseController.execute` (juliett.js
lines 389-392): a plain `Error` when no recipient or no payload is set. -/
def BaseController.executeGuards (self : BaseControllerState) : Except JSError Unit :=
  if looseEqNull self.recipient then .error .genericError
  else if looseEqNull self.payload then .error .genericError
  else .ok ()

/-- Whether an optional settlement took the resolve (success) path. -/
def settlementIsResolved : Option Settlement → Bool
  | some (.resolved _ _ _ _) => true
  | _ => false

/-- Whether an optional settlement took the reject (error) path. -/
def settlementIsRejected : Option Settlement → Bool
  | some (.rejected _ _) => true
  | _ => false

/-- `DataController.onSuccessEventHandler` (juliett.js lines 450-455): the
single call it makes to the requestor's `onDataControllerCallbackEvent`,
with `status: DataControllerStatus.Succeeded` and the response as
`payload`. -/
def DataController.onSuccessEventHandlerCalls (response : JSVal) : List JSVal :=
  [.obj [("status", DataControllerStatus.Succeeded), ("payload", response)]]

/-- `DataController.onErrorEventHandler` (juliett.js lines 460-465): the
single call it makes to the requestor's `onDataControllerCallbackEvent`,
with `status: DataControllerStatus.Failed` and the response as `payload`,
unchanged. -/
def DataController.onErrorEventHandlerCalls (response : JSVal) : List JSVal :=
  [.obj [("status", DataControllerStatus.Failed), ("payload", response)]]

/-- A freshly constructed controller, used to instantiate the universally
quantified theorems at a concrete state. -/
def sampleController : BaseControllerState :=
  BaseController.new

/-- A concrete three-element list: three `BaseItem` instances at positions
0, 1 and 2, as produced by three `push` calls on a fresh list. -/
def sampleList3 : BaseItemList :=
  { length := 3,
    items := fun j =>
      if j = 0 then .baseItemInst (.num 10)
      else if j = 1 then .baseItemInst (.num 11)
      else if j = 2 then .baseItemInst (.num 12)
      else .undefined }

/-- Claim C1 (corrected), counterexample: for a concrete payload built for a
requestor named `App` on which `addContent` has been called, `toJSON`
returns `undefined` and `JSON.stringify` therefore produces no JSON text at
all, rather than a JSON object of shape
`(header: (requestor, time), body)`: the class declares no `content`
getter, so `toJSON`'s read of `this.content` yields `undefined`. -/
theorem payload_toJSON_serialization_cex :
    Payload.toJSON (Payload.addContent ⟨[], "App"⟩ 1700000000000 (JSVal.obj [])) = JSVal.undefined ∧
    jsonStringify (Payload.toJSON (Payload.addContent ⟨[], "App"⟩ 1700000000000 (JSVal.obj []))) = none :=
  ⟨rfl, rfl⟩

/-- Claim C1 (amended): after `addContent(obj)` the entry
`(header: (requestor: <class name>, time: <Date.now()>), body: obj)` is
appended to the payload's private content array, but the JSON
serialization produced via `toJSON` is `undefined` (so `JSON.stringify`
yields no text), because `Payload` declares only a `content` setter and
`toJSON` reads the getterless `content` property. -/
theorem payload_serialization_amended (p : PayloadState) (time : Int) (body : JSVal) :
    (Payload.addContent p time body).content =
      p.content ++ [Payload.mkEntry p.requestor time body] ∧
    Payload.mkEntry p.requestor time body =
      JSVal.obj [("header", JSVal.obj [("requestor", JSVal.str p.requestor),
                                       ("time", JSVal.num time)]),
                 ("body", body)] ∧
    Payload.toJSON (Payload.addContent p time body) = JSVal.undefined ∧
    jsonStringify (Payload.toJSON (Payload.addContent p time body)) = none :=
  ⟨rfl, rfl, rfl, rfl⟩

/-- Claim C2: on a completed request (`readyState` 4) whose HTTP status is
not 200, `BaseController.execute`'s state-change handler takes the error
path and rejects with exactly the object
`(errorCode: status, errorMessage: responseText)`, the raw response body
passed through uninterpreted. -/
theorem execute_error_path (self : BaseControllerState) (request : XHRState)
    (h4 : request.readyState = 4) (hs : request.status ≠ 200) :
    BaseController.onReadyStateChange self request =
      some (.rejected request.status request.responseText) := by
  simp [BaseController.onReadyStateChange, h4, hs]

/-- Claim C2, witness at a concrete completed 404 response. -/
theorem execute_error_path_witness :
    BaseController.onReadyStateChange sampleController (XHRState.mk 4 404 "boom") =
      some (.rejected 404 "boom") :=
  execute_error_path sampleController (XHRState.mk 4 404 "boom") rfl (by decide)

/-- Claim C3: on a completed request (`readyState` 4) with HTTP status
exactly 200, `BaseController.execute`'s state-change handler takes the
success path and resolves with an object whose `sent` field is the
controller's payload, unchanged, and whose `received` field is the raw
response body text. -/
theorem execute_success_path (self : BaseControllerState) (request : XHRState)
    (h4 : request.readyState = 4) (hs : request.status = 200) :
    BaseController.onReadyStateChange self request =
      some (.resolved self.sender self.recipient self.payload request.responseText) := by
  simp [BaseController.onReadyStateChange, h4, hs]

/-- Claim C3, witness at a concrete completed 200 response. -/
theorem execute_success_path_witness :
    BaseController.onReadyStateChange sampleController (XHRState.mk 4 200 "done") =
      some (.resolved sampleController.sender sampleController.recipient
        sampleController.payload "done") :=
  execute_success_path sampleController (XHRState.mk 4 200 "done") rfl rfl

/-- Claim C4: every completed request (`readyState` 4) settles the promise
in `BaseController.execute` on exactly one of the two callback paths: the
settlement exists, it is the success path precisely when the HTTP status is
200, the error path precisely when it is not, and never both. -/
theorem execute_dispatch_exclusive (self : BaseControllerState) (request : XHRState)
    (h4 : request.readyState = 4) :
    (BaseController.onReadyStateChange self request).isSome = true ∧
    (settlementIsResolved (BaseController.onReadyStateChange self request) = true ↔
      request.status = 200) ∧
    (settlementIsRejected (BaseController.onReadyStateChange self request) = true ↔
      request.status ≠ 200) ∧
    ¬(settlementIsResolved (BaseController.onReadyStateChange self request) = true ∧
      settlementIsRejected (BaseController.onReadyStateChange self request) = true) := by
  by_cases h : request.status = 200 <;>
    simp [BaseController.onReadyStateChange, h4, h, settlementIsResolved, settlementIsRejected]

/-- Claim C4, witness: a completed 500 response settles, is not on the
success path, and is on the error path. -/
theorem execute_dispatch_exclusive_witness :
    (BaseController.onReadyStateChange sampleController (XHRState.mk 4 500 "oops")).isSome = true ∧
    settlementIsRejected
      (BaseController.onReadyStateChange sampleController (XHRState.mk 4 500 "oops")) = true ∧
    settlementIsResolved
      (BaseController.onReadyStateChange sampleController (XHRState.mk 4 500 "oops")) = false := by
  have h := execute_dispatch_exclusive sampleController (XHRState.mk 4 500 "oops") rfl
  refine ⟨h.1, h.2.2.1.mpr (by decide), ?_⟩
  have h2 := h.2.1
  revert h2
  cases settlementIsResolved
    (BaseController.onReadyStateChange sampleController (XHRState.mk 4 500 "oops")) <;> simp

/-- Claim C5 (code bug): `DataFieldType.Boolean` reads as the enumerator
constant `4` through the `get` trap, yet the `DataField` constructor throws
a `TypeError` for `fieldType = 4` (with a validation callback supplied),
because the `Enumerator` `has` trap answers `fieldType in DataFieldType`
by indexing `Reflect.ownKeys` with the numeral, so only 0..3 pass; the
constructor even accepts `fieldType = 0`, which is not an enumerator
constant. -/
theorem dataField_boolean_constant_rejected :
    enumeratorGet dataFieldTypeTarget "Boolean" = JSVal.num 4 ∧
    DataField.new "f" 4 JSVal.nullv false (some 0) = .error .typeError ∧
    DataField.new "f" 3 JSVal.nullv false (some 0) = .ok ⟨"f", 3, JSVal.nullv, false, 0⟩ ∧
    DataField.new "f" 0 JSVal.nullv false (some 0) = .ok ⟨"f", 0, JSVal.nullv, false, 0⟩ :=
  ⟨rfl, rfl, rfl, rfl⟩

/-- Claim C6: assigning `v` to `BaseController.recipient` (and likewise to
`sender`) throws a `TypeError` when `v` is loosely `null`, not a string, or
fails `PATTERN_URL.test`, leaving the instance unchanged (the throw happens
before any assignment, which the error result reflects); otherwise the
setter stores `v` and the getter subsequently returns it. -/
theorem recipient_sender_setter_spec (st : BaseControllerState) (v : JSVal) (s : String) :
    (looseEqNull v = true →
      BaseController.setRecipient st v = .error .typeError ∧
      BaseController.setSender st v = .error .typeError) ∧
    (isString v = false →
      BaseController.setRecipient st v = .error .typeError ∧
      BaseController.setSender st v = .error .typeError) ∧
    (testURL s = false →
      BaseController.setRecipient st (.str s) = .error .typeError ∧
      BaseController.setSender st (.str s) = .error .typeError) ∧
    (testURL s = true →
      BaseController.setRecipient st (.str s) = .ok { st with recipient := .str s } ∧
      BaseController.setSender st (.str s) = .ok { st with sender := .str s } ∧
      ({ st with recipient := JSVal.str s } : BaseControllerState).recipient = .str s ∧
      ({ st with sender := JSVal.str s } : BaseControllerState).sender = .str s) := by
  refine ⟨fun h => ?_, fun h => ?_, fun h => ?_, fun h => ?_⟩
  · constructor <;> simp [BaseController.setRecipient, BaseController.setSender, h]
  · constructor <;> simp [BaseController.setRecipient, BaseController.setSender, h]
  · constructor <;>
      simp [BaseController.setRecipient, BaseController.setSender, looseEqNull, isString,
        testURLVal, h]
  · refine ⟨?_, ?_, rfl, rfl⟩ <;>
      simp [BaseController.setRecipient, BaseController.setSender, looseEqNull, isString,
        testURLVal, h]

/-- Claim C6, witness: concrete rejections for `null`, a number and a
non-matching string, and concrete acceptance of a matching URL on both
setters. -/
theorem recipient_sender_setter_spec_witness :
    BaseController.setRecipient sampleController JSVal.nullv = .error .typeError ∧
    BaseController.setRecipient sampleController (JSVal.num 7) = .error .typeError ∧
    BaseController.setRecipient sampleController (JSVal.str "nope") = .error .typeError ∧
    BaseController.setRecipient sampleController (JSVal.str "https://www.example.com/a") =
      .ok { sampleController with recipient := JSVal.str "https://www.example.com/a" } ∧
    BaseController.setSender sampleController (JSVal.str "https://www.example.com/a") =
      .ok { sampleController with sender := JSVal.str "https://www.example.com/a" } :=
  ⟨((recipient_sender_setter_spec sampleController JSVal.nullv "x").1 rfl).1,
   ((recipient_sender_setter_spec sampleController (JSVal.num 7) "x").2.1 rfl).1,
   ((recipient_sender_setter_spec sampleController (JSVal.num 7) "nope").2.2.1 rfl).1,
   ((recipient_sender_setter_spec sampleController (JSVal.num 7)
      "https://www.example.com/a").2.2.2 rfl).1,
   ((recipient_sender_setter_spec sampleController (JSVal.num 7)
      "https://www.example.com/a").2.2.2 rfl).2.1⟩

/-- Claim C7: for every failure outcome `r`, `DataController`'s error
handler calls the requestor's `onDataControllerCallbackEvent` exactly once,
with an object whose `status` is `DataControllerStatus.Failed` (the value
`false`) and whose `payload` is `r` itself, unchanged. -/
theorem dataController_failure_verbatim (response : JSVal) :
    DataController.onErrorEventHandlerCalls response =
      [JSVal.obj [("status", JSVal.bool false), ("payload", response)]] ∧
    DataControllerStatus.Failed = JSVal.bool false ∧
    (DataController.onErrorEventHandlerCalls response).length = 1 :=
  ⟨rfl, rfl, rfl⟩

/-- Claim C8: pushing a `BaseItem` instance increments the list length by
exactly one and `item(length - 1)` then returns the pushed value; pushing
anything else throws a `TypeError` (so no state is produced and the list
is unchanged). -/
theorem baseItemList_push_spec (L : BaseItemList) (x : JSVal) :
    (isBaseItem x = true →
      (BaseItemList.push L x).map BaseItemList.length = .ok (L.length + 1) ∧
      (BaseItemList.push L x).bind
        (fun L2 => BaseItemList.item L2 ((L2.length : Int) - 1)) = .ok x) ∧
    (isBaseItem x = false → BaseItemList.push L x = .error .typeError) := by
  constructor
  · intro h
    have h1 : ¬ (((L.length + 1 : Nat) : Int) - 1 < 0) := by omega
    have h2 : ¬ (((L.length + 1 : Nat) : Int) - 1 > ((L.length + 1 : Nat) : Int) - 1) := by
      omega
    have h3 : (((L.length + 1 : Nat) : Int) - 1).toNat = L.length := by omega
    constructor
    · simp [BaseItemList.push, h, Except.map]
    · simp [BaseItemList.push, h, Except.bind, BaseItemList.item, h1, h2, h3]
  · intro h
    simp [BaseItemList.push, h]

/-- Claim C8, witness: pushing a concrete `BaseItem` onto a fresh list
gives length 1 with the item readable at index 0, and pushing `null`
throws. -/
theorem baseItemList_push_spec_witness :
    (BaseItemList.push BaseItemList.new (JSVal.baseItemInst (JSVal.num 7))).map
      BaseItemList.length = .ok 1 ∧
    (BaseItemList.push BaseItemList.new (JSVal.baseItemInst (JSVal.num 7))).bind
      (fun L2 => BaseItemList.item L2 ((L2.length : Int) - 1)) =
      .ok (JSVal.baseItemInst (JSVal.num 7)) ∧
    BaseItemList.push BaseItemList.new JSVal.nullv = .error .typeError :=
  ⟨((baseItemList_push_spec BaseItemList.new (JSVal.baseItemInst (JSVal.num 7))).1 rfl).1,
   ((baseItemList_push_spec BaseItemList.new (JSVal.baseItemInst (JSVal.num 7))).1 rfl).2,
   (baseItemList_push_spec BaseItemList.new JSVal.nullv).2 rfl⟩

/-- Claim C9: the `BaseController` constructor establishes, and the handler
setters and the throwing URL setters preserve, the invariant that
`onSuccessEventHandler` and `onErrorEventHandler` always hold `null` or a
function; the handler setters are total (never throw) and store `null` for
any value that is not a non-null function. -/
theorem baseController_handler_invariant :
    handlerInv BaseController.new = true ∧
    (∀ st v, handlerInv st = true →
      handlerInv (BaseController.setOnSuccessEventHandler st v) = true) ∧
    (∀ st v, handlerInv st = true →
      handlerInv (BaseController.setOnErrorEventHandler st v) = true) ∧
    (∀ st v st2, BaseController.setRecipient st v = .ok st2 →
      handlerInv st = true → handlerInv st2 = true) ∧
    (∀ st v st2, BaseController.setSender st v = .ok st2 →
      handlerInv st = true → handlerInv st2 = true) := by
  refine ⟨rfl, ?_, ?_, ?_, ?_⟩
  · intro st v h
    unfold handlerInv at h
    unfold handlerInv BaseController.setOnSuccessEventHandler
    rw [Bool.and_eq_true] at h ⊢
    refine ⟨?_, h.2⟩
    show isNullOrFunction (if !looseEqNull v && isFunction v then v else JSVal.nullv) = true
    split
    · next hc =>
      have hf : isFunction v = true := (Bool.and_eq_true _ _ |>.mp hc).2
      simp [isNullOrFunction, hf]
    · rfl
  · intro st v h
    unfold handlerInv at h
    unfold handlerInv BaseController.setOnErrorEventHandler
    rw [Bool.and_eq_true] at h ⊢
    refine ⟨h.1, ?_⟩
    show isNullOrFunction (if !looseEqNull v && isFunction v then v else JSVal.nullv) = true
    split
    · next hc =>
      have hf : isFunction v = true := (Bool.and_eq_true _ _ |>.mp hc).2
      simp [isNullOrFunction, hf]
    · rfl
  · intro st v st2 hok h
    unfold BaseController.setRecipient at hok
    split at hok
    · exact absurd hok (by simp)
    · cases hok
      simpa [handlerInv] using h
  · intro st v st2 hok h
    unfold BaseController.setSender at hok
    split at hok
    · exact absurd hok (by simp)
    · cases hok
      simpa [handlerInv] using h

/-- Claim C9, witness: the invariant on the fresh controller, after storing
a function in the success slot, after assigning a non-function (stored as
`null`) to the error slot, and after a successful `recipient`
assignment. -/
theorem baseController_handler_invariant_witness :
    handlerInv BaseController.new = true ∧
    handlerInv (BaseController.setOnSuccessEventHandler BaseController.new (JSVal.func 0)) =
      true ∧
    handlerInv (BaseController.setOnErrorEventHandler BaseController.new (JSVal.num 3)) =
      true ∧
    handlerInv { BaseController.new with
      recipient := JSVal.str "https://www.example.com/a" } = true :=
  ⟨baseController_handler_invariant.1,
   baseController_handler_invariant.2.1 BaseController.new (JSVal.func 0)
     baseController_handler_invariant.1,
   baseController_handler_invariant.2.2.1 BaseController.new (JSVal.num 3)
     baseController_handler_invariant.1,
   baseController_handler_invariant.2.2.2.1 BaseController.new
     (JSVal.str "https://www.example.com/a") _ rfl baseController_handler_invariant.1⟩

/-- Claim C10: deleting a valid non-final index `i` from a list of length
at least 2 decrements the length by one but shifts nothing: `item(i)` then
returns `undefined` (the slot is emptied in place) and every element at a
position after `i` stays at its original position. -/
theorem baseItemList_delete_noShift (L : BaseItemList) (i : Nat)
    (h2 : 2 ≤ L.length) (hi : i < L.length - 1) :
    (BaseItemList.delete L (i : Int)).map BaseItemList.length = .ok (L.length - 1) ∧
    (BaseItemList.delete L (i : Int)).bind
      (fun L2 => BaseItemList.item L2 (i : Int)) = .ok JSVal.undefined ∧
    ∀ j : Nat, i < j →
      (BaseItemList.delete L (i : Int)).map (fun L2 => L2.items j) = .ok (L.items j) := by
  have hc1 : ¬ ((i : Int) < 0) := by omega
  have hc2 : ¬ ((i : Int) > (L.length : Int) - 1) := by omega
  have hc3 : ¬ ((i : Int) > ((L.length - 1 : Nat) : Int) - 1) := by omega
  have hc4 : (i : Int).toNat = i := by omega
  refine ⟨?_, ?_, ?_⟩
  · simp [BaseItemList.delete, hc1, hc2, Except.map]
  · simp [BaseItemList.delete, hc1, hc2, hc3, hc4, Except.bind, BaseItemList.item]
  · intro j hj
    have hne : ¬ (j = i) := by omega
    simp [BaseItemList.delete, hc1, hc2, hc4, hne, Except.map]

/-- Claim C10, witness: deleting index 0 from a concrete three-element list
leaves length 2, reads `undefined` at index 0, and keeps the elements at
positions 1 and 2 in place. -/
theorem baseItemList_delete_noShift_witness :
    (BaseItemList.delete sampleList3 (0 : Int)).map BaseItemList.length = .ok 2 ∧
    (BaseItemList.delete sampleList3 (0 : Int)).bind
      (fun L2 => BaseItemList.item L2 (0 : Int)) = .ok JSVal.undefined ∧
    (BaseItemList.delete sampleList3 (0 : Int)).map (fun L2 => L2.items 1) =
      .ok (sampleList3.items 1) ∧
    (BaseItemList.delete sampleList3 (0 : Int)).map (fun L2 => L2.items 2) =
      .ok (sampleList3.items 2) :=
  ⟨(baseItemList_delete_noShift sampleList3 0 (by decide) (by decide)).1,
   (baseItemList_delete_noShift sampleList3 0 (by decide) (by decide)).2.1,
   (baseItemList_delete_noShift sampleList3 0 (by decide) (by decide)).2.2 1 (by decide),
   (baseItemList_delete_noShift sampleList3 0 (by decide) (by decide)).2.2 2 (by decide)⟩
